import Mathlib

/-!
Verification of the email-calculator repository (`src/emails.py`).

The core logic is the dataclass `EmailScenario` with its method
`yearly_metrics`, plus the presenter code that computes `rev_diff`,
`prof_diff` and chooses a success or warning message.  All numeric
fields are modelled as rationals; the Python code performs exact
products of decimals on the inputs of interest, so ℚ captures the
arithmetic faithfully.
-/

namespace EmailCalc

/-- The `EmailScenario` dataclass of `src/emails.py` (lines 6-15). -/
structure EmailScenario where
  name : String
  list_size : ℚ
  sends_per_week : ℚ
  open_rate : ℚ
  click_rate : ℚ
  conversion_rate : ℚ
  avg_order_value : ℚ
  gross_margin : ℚ := 1/2
deriving DecidableEq, Repr

/-- The record returned by `yearly_metrics` (lines 28-37). -/
structure YearlyMetrics where
  name : String
  sends_per_year : ℚ
  total_sends : ℚ
  total_opens : ℚ
  total_clicks : ℚ
  total_buyers : ℚ
  revenue : ℚ
  profit : ℚ
deriving DecidableEq, Repr

/-- `EmailScenario.yearly_metrics` (lines 17-37): the seven-stage chain. -/
def yearly_metrics (self : EmailScenario) : YearlyMetrics :=
  let sends_per_year := self.sends_per_week * 52
  let total_sends := self.list_size * sends_per_year
  let total_opens := total_sends * self.open_rate
  let total_clicks := total_opens * self.click_rate
  let total_buyers := total_clicks * self.conversion_rate
  let revenue := total_buyers * self.avg_order_value
  let profit := revenue * self.gross_margin
  { name := self.name
    sends_per_year := sends_per_year
    total_sends := total_sends
    total_opens := total_opens
    total_clicks := total_clicks
    total_buyers := total_buyers
    revenue := revenue
    profit := profit }

/-- The method threaded as a state transformer on `self`: the body only
reads the fields of `self`, so the returned state is `self` itself. -/
def yearly_metrics_method (self : EmailScenario) :
    YearlyMetrics × EmailScenario :=
  let sends_per_year := self.sends_per_week * 52
  let total_sends := self.list_size * sends_per_year
  let total_opens := total_sends * self.open_rate
  let total_clicks := total_opens * self.click_rate
  let total_buyers := total_clicks * self.conversion_rate
  let revenue := total_buyers * self.avg_order_value
  let profit := revenue * self.gross_margin
  ({ name := self.name
     sends_per_year := sends_per_year
     total_sends := total_sends
     total_opens := total_opens
     total_clicks := total_clicks
     total_buyers := total_buyers
     revenue := revenue
     profit := profit }, self)

/-- `rev_diff` from the presenter code (line 224). -/
def rev_diff (cur n : YearlyMetrics) : ℚ :=
  n.revenue - cur.revenue

/-- `prof_diff` from the presenter code (line 225). -/
def prof_diff (cur n : YearlyMetrics) : ℚ :=
  n.profit - cur.profit

/-- The two messages the presenter can show (lines 233-236). -/
inductive UpliftMessage where
  | success
  | warning
deriving DecidableEq, Repr

/-- The branch on `rev_diff > 0` in the presenter (lines 233-236). -/
def uplift_message (cur n : YearlyMetrics) : UpliftMessage :=
  if rev_diff cur n > 0 then UpliftMessage.success else UpliftMessage.warning

/-- The "Current" example scenario from the spec and the app defaults
(list 500000, 2 sends/week, 22% open, 6% click, 3% conv, $97 AOV, 60% margin). -/
def exampleCurrent : EmailScenario :=
  { name := "Current"
    list_size := 500000
    sends_per_week := 2
    open_rate := 22/100
    click_rate := 6/100
    conversion_rate := 3/100
    avg_order_value := 97
    gross_margin := 60/100 }

/-- The "New" example scenario from the spec and the app defaults
(list 500000, 7 sends/week, 20% open, 5% click, 2% conv, $97 AOV, 60% margin). -/
def exampleNew : EmailScenario :=
  { name := "New"
    list_size := 500000
    sends_per_week := 7
    open_rate := 20/100
    click_rate := 5/100
    conversion_rate := 2/100
    avg_order_value := 97
    gross_margin := 60/100 }

/-- C1: `yearly_metrics` computes exactly the seven-stage chain in order,
each stage feeding the next, and returns all seven values plus the
scenario's name. -/
theorem yearly_metrics_chain (s : EmailScenario) :
    (yearly_metrics s).sends_per_year = s.sends_per_week * 52 ∧
    (yearly_metrics s).total_sends = s.list_size * (yearly_metrics s).sends_per_year ∧
    (yearly_metrics s).total_opens = (yearly_metrics s).total_sends * s.open_rate ∧
    (yearly_metrics s).total_clicks = (yearly_metrics s).total_opens * s.click_rate ∧
    (yearly_metrics s).total_buyers = (yearly_metrics s).total_clicks * s.conversion_rate ∧
    (yearly_metrics s).revenue = (yearly_metrics s).total_buyers * s.avg_order_value ∧
    (yearly_metrics s).profit = (yearly_metrics s).revenue * s.gross_margin ∧
    (yearly_metrics s).name = s.name :=
  ⟨rfl, rfl, rfl, rfl, rfl, rfl, rfl, rfl⟩

/-- C2: on the "Current" example (500000 subscribers, 2 sends/week, 22%
open, 6% click, 3% conversion, $97 AOV, 60% margin) `yearly_metrics`
returns exactly the stated seven values. -/
theorem example_current_metrics :
    yearly_metrics exampleCurrent =
      { name := "Current"
        sends_per_year := 104
        total_sends := 52000000
        total_opens := 11440000
        total_clicks := 686400
        total_buyers := 20592
        revenue := 1997424
        profit := 5992272/5 } := by
  norm_num [yearly_metrics, exampleCurrent]

/-- C3: on the "New" example (500000 subscribers, 7 sends/week, 20% open,
5% click, 2% conversion, $97 AOV, 60% margin) `yearly_metrics` returns
exactly the stated seven values, and its revenue minus the "Current"
example's revenue is 1533376, which is positive. -/
theorem example_new_metrics_and_uplift :
    yearly_metrics exampleNew =
      { name := "New"
        sends_per_year := 364
        total_sends := 182000000
        total_opens := 36400000
        total_clicks := 1820000
        total_buyers := 36400
        revenue := 3530800
        profit := 2118480 } ∧
    rev_diff (yearly_metrics exampleCurrent) (yearly_metrics exampleNew) = 1533376 ∧
    0 < rev_diff (yearly_metrics exampleCurrent) (yearly_metrics exampleNew) := by
  norm_num [yearly_metrics, exampleCurrent, exampleNew, rev_diff]

/-- C4 counterexample: the "Current" example satisfies every hypothesis of
the claim (non-negative listSize, sendsPerWeek, avgOrderValue, rates in
(0,1]), yet `totalSends ≤ sendsPerYear` and `revenue ≤ totalBuyers` both
fail there: 52000000 > 104 and 1997424 > 20592. -/
theorem funnel_claim_counterexample :
    (0 ≤ exampleCurrent.list_size ∧ 0 ≤ exampleCurrent.sends_per_week ∧
     0 ≤ exampleCurrent.avg_order_value ∧
     0 < exampleCurrent.open_rate ∧ exampleCurrent.open_rate ≤ 1 ∧
     0 < exampleCurrent.click_rate ∧ exampleCurrent.click_rate ≤ 1 ∧
     0 < exampleCurrent.conversion_rate ∧ exampleCurrent.conversion_rate ≤ 1 ∧
     0 < exampleCurrent.gross_margin ∧ exampleCurrent.gross_margin ≤ 1) ∧
    ¬ (yearly_metrics exampleCurrent).total_sends
        ≤ (yearly_metrics exampleCurrent).sends_per_year ∧
    ¬ (yearly_metrics exampleCurrent).revenue
        ≤ (yearly_metrics exampleCurrent).total_buyers := by
  norm_num [yearly_metrics, exampleCurrent]

/-- C4 (amended): with non-negative listSize, sendsPerWeek, avgOrderValue
and rate fields in (0,1], all seven values of `yearly_metrics` are
non-negative, and each rate-multiplication stage is at most its
predecessor: totalOpens ≤ totalSends, totalClicks ≤ totalOpens,
totalBuyers ≤ totalClicks, profit ≤ revenue.  (The multiplications by
listSize and by avgOrderValue can enlarge, so totalSends ≤ sendsPerYear
and revenue ≤ totalBuyers are not required.) -/
theorem yearly_metrics_nonneg_and_funnel (s : EmailScenario)
    (hl : 0 ≤ s.list_size) (hw : 0 ≤ s.sends_per_week)
    (ha : 0 ≤ s.avg_order_value)
    (ho0 : 0 < s.open_rate) (ho1 : s.open_rate ≤ 1)
    (hc0 : 0 < s.click_rate) (hc1 : s.click_rate ≤ 1)
    (hv0 : 0 < s.conversion_rate) (hv1 : s.conversion_rate ≤ 1)
    (hg0 : 0 < s.gross_margin) (hg1 : s.gross_margin ≤ 1) :
    (0 ≤ (yearly_metrics s).sends_per_year ∧
     0 ≤ (yearly_metrics s).total_sends ∧
     0 ≤ (yearly_metrics s).total_opens ∧
     0 ≤ (yearly_metrics s).total_clicks ∧
     0 ≤ (yearly_metrics s).total_buyers ∧
     0 ≤ (yearly_metrics s).revenue ∧
     0 ≤ (yearly_metrics s).profit) ∧
    (yearly_metrics s).total_opens ≤ (yearly_metrics s).total_sends ∧
    (yearly_metrics s).total_clicks ≤ (yearly_metrics s).total_opens ∧
    (yearly_metrics s).total_buyers ≤ (yearly_metrics s).total_clicks ∧
    (yearly_metrics s).profit ≤ (yearly_metrics s).revenue := by
  have h1 : (0:ℚ) ≤ (yearly_metrics s).sends_per_year := by
    show (0:ℚ) ≤ s.sends_per_week * 52
    positivity
  have h2 : (0:ℚ) ≤ (yearly_metrics s).total_sends :=
    mul_nonneg hl h1
  have h3 : (0:ℚ) ≤ (yearly_metrics s).total_opens :=
    mul_nonneg h2 ho0.le
  have h4 : (0:ℚ) ≤ (yearly_metrics s).total_clicks :=
    mul_nonneg h3 hc0.le
  have h5 : (0:ℚ) ≤ (yearly_metrics s).total_buyers :=
    mul_nonneg h4 hv0.le
  have h6 : (0:ℚ) ≤ (yearly_metrics s).revenue :=
    mul_nonneg h5 ha
  have h7 : (0:ℚ) ≤ (yearly_metrics s).profit :=
    mul_nonneg h6 hg0.le
  exact ⟨⟨h1, h2, h3, h4, h5, h6, h7⟩,
    mul_le_of_le_one_right h2 ho1,
    mul_le_of_le_one_right h3 hc1,
    mul_le_of_le_one_right h4 hv1,
    mul_le_of_le_one_right h6 hg1⟩

/-- Witness for the amended C4, applied to the "Current" example. -/
theorem yearly_metrics_nonneg_and_funnel_witness :
    (0 ≤ (yearly_metrics exampleCurrent).sends_per_year ∧
     0 ≤ (yearly_metrics exampleCurrent).total_sends ∧
     0 ≤ (yearly_metrics exampleCurrent).total_opens ∧
     0 ≤ (yearly_metrics exampleCurrent).total_clicks ∧
     0 ≤ (yearly_metrics exampleCurrent).total_buyers ∧
     0 ≤ (yearly_metrics exampleCurrent).revenue ∧
     0 ≤ (yearly_metrics exampleCurrent).profit) ∧
    (yearly_metrics exampleCurrent).total_opens
      ≤ (yearly_metrics exampleCurrent).total_sends ∧
    (yearly_metrics exampleCurrent).total_clicks
      ≤ (yearly_metrics exampleCurrent).total_opens ∧
    (yearly_metrics exampleCurrent).total_buyers
      ≤ (yearly_metrics exampleCurrent).total_clicks ∧
    (yearly_metrics exampleCurrent).profit
      ≤ (yearly_metrics exampleCurrent).revenue :=
  yearly_metrics_nonneg_and_funnel exampleCurrent
    (by norm_num [exampleCurrent]) (by norm_num [exampleCurrent])
    (by norm_num [exampleCurrent]) (by norm_num [exampleCurrent])
    (by norm_num [exampleCurrent]) (by norm_num [exampleCurrent])
    (by norm_num [exampleCurrent]) (by norm_num [exampleCurrent])
    (by norm_num [exampleCurrent]) (by norm_num [exampleCurrent])
    (by norm_num [exampleCurrent])

/-- C5: with rates in (0,1] and non-negative listSize, sendsPerWeek and
avgOrderValue, the funnel shrinks at each rate stage: totalOpens ≤
totalSends, totalClicks ≤ totalOpens, totalBuyers ≤ totalClicks and
profit ≤ revenue. -/
theorem funnel_shrinkage (s : EmailScenario)
    (hl : 0 ≤ s.list_size) (hw : 0 ≤ s.sends_per_week)
    (ha : 0 ≤ s.avg_order_value)
    (ho0 : 0 < s.open_rate) (ho1 : s.open_rate ≤ 1)
    (hc0 : 0 < s.click_rate) (hc1 : s.click_rate ≤ 1)
    (hv0 : 0 < s.conversion_rate) (hv1 : s.conversion_rate ≤ 1)
    (hg0 : 0 < s.gross_margin) (hg1 : s.gross_margin ≤ 1) :
    (yearly_metrics s).total_opens ≤ (yearly_metrics s).total_sends ∧
    (yearly_metrics s).total_clicks ≤ (yearly_metrics s).total_opens ∧
    (yearly_metrics s).total_buyers ≤ (yearly_metrics s).total_clicks ∧
    (yearly_metrics s).profit ≤ (yearly_metrics s).revenue := by
  have h1 : (0:ℚ) ≤ (yearly_metrics s).sends_per_year := by
    show (0:ℚ) ≤ s.sends_per_week * 52
    positivity
  have h2 : (0:ℚ) ≤ (yearly_metrics s).total_sends :=
    mul_nonneg hl h1
  have h3 : (0:ℚ) ≤ (yearly_metrics s).total_opens :=
    mul_nonneg h2 ho0.le
  have h4 : (0:ℚ) ≤ (yearly_metrics s).total_clicks :=
    mul_nonneg h3 hc0.le
  have h6 : (0:ℚ) ≤ (yearly_metrics s).revenue :=
    mul_nonneg (mul_nonneg h4 hv0.le) ha
  exact ⟨mul_le_of_le_one_right h2 ho1,
    mul_le_of_le_one_right h3 hc1,
    mul_le_of_le_one_right h4 hv1,
    mul_le_of_le_one_right h6 hg1⟩

/-- Witness for C5, applied to the "New" example. -/
theorem funnel_shrinkage_witness :
    (yearly_metrics exampleNew).total_opens
      ≤ (yearly_metrics exampleNew).total_sends ∧
    (yearly_metrics exampleNew).total_clicks
      ≤ (yearly_metrics exampleNew).total_opens ∧
    (yearly_metrics exampleNew).total_buyers
      ≤ (yearly_metrics exampleNew).total_clicks ∧
    (yearly_metrics exampleNew).profit
      ≤ (yearly_metrics exampleNew).revenue :=
  funnel_shrinkage exampleNew
    (by norm_num [exampleNew]) (by norm_num [exampleNew])
    (by norm_num [exampleNew]) (by norm_num [exampleNew])
    (by norm_num [exampleNew]) (by norm_num [exampleNew])
    (by norm_num [exampleNew]) (by norm_num [exampleNew])
    (by norm_num [exampleNew]) (by norm_num [exampleNew])
    (by norm_num [exampleNew])

/-- C6: scaling listSize by any factor k ≥ 0 scales totalSends,
totalOpens, totalClicks, totalBuyers, revenue and profit by k, and leaves
sendsPerYear unchanged. -/
theorem list_size_scaling (s : EmailScenario) (k : ℚ) (hk : 0 ≤ k) :
    (yearly_metrics { s with list_size := k * s.list_size }).sends_per_year
      = (yearly_metrics s).sends_per_year ∧
    (yearly_metrics { s with list_size := k * s.list_size }).total_sends
      = k * (yearly_metrics s).total_sends ∧
    (yearly_metrics { s with list_size := k * s.list_size }).total_opens
      = k * (yearly_metrics s).total_opens ∧
    (yearly_metrics { s with list_size := k * s.list_size }).total_clicks
      = k * (yearly_metrics s).total_clicks ∧
    (yearly_metrics { s with list_size := k * s.list_size }).total_buyers
      = k * (yearly_metrics s).total_buyers ∧
    (yearly_metrics { s with list_size := k * s.list_size }).revenue
      = k * (yearly_metrics s).revenue ∧
    (yearly_metrics { s with list_size := k * s.list_size }).profit
      = k * (yearly_metrics s).profit := by
  refine ⟨rfl, ?_, ?_, ?_, ?_, ?_, ?_⟩ <;> simp only [yearly_metrics] <;> ring

/-- Witness for C6: doubling the "Current" example's list size. -/
theorem list_size_scaling_witness :
    (yearly_metrics { exampleCurrent with
        list_size := 2 * exampleCurrent.list_size }).sends_per_year
      = (yearly_metrics exampleCurrent).sends_per_year ∧
    (yearly_metrics { exampleCurrent with
        list_size := 2 * exampleCurrent.list_size }).total_sends
      = 2 * (yearly_metrics exampleCurrent).total_sends ∧
    (yearly_metrics { exampleCurrent with
        list_size := 2 * exampleCurrent.list_size }).total_opens
      = 2 * (yearly_metrics exampleCurrent).total_opens ∧
    (yearly_metrics { exampleCurrent with
        list_size := 2 * exampleCurrent.list_size }).total_clicks
      = 2 * (yearly_metrics exampleCurrent).total_clicks ∧
    (yearly_metrics { exampleCurrent with
        list_size := 2 * exampleCurrent.list_size }).total_buyers
      = 2 * (yearly_metrics exampleCurrent).total_buyers ∧
    (yearly_metrics { exampleCurrent with
        list_size := 2 * exampleCurrent.list_size }).revenue
      = 2 * (yearly_metrics exampleCurrent).revenue ∧
    (yearly_metrics { exampleCurrent with
        list_size := 2 * exampleCurrent.list_size }).profit
      = 2 * (yearly_metrics exampleCurrent).profit :=
  list_size_scaling exampleCurrent 2 (by norm_num)

/-- C7: a scenario with sendsPerWeek = 0 or listSize = 0 yields 0 for
every downstream metric; the function is total, so this is an ordinary
result, not an error. -/
theorem zero_input_zero_metrics (s : EmailScenario)
    (h : s.sends_per_week = 0 ∨ s.list_size = 0) :
    (yearly_metrics s).total_sends = 0 ∧
    (yearly_metrics s).total_opens = 0 ∧
    (yearly_metrics s).total_clicks = 0 ∧
    (yearly_metrics s).total_buyers = 0 ∧
    (yearly_metrics s).revenue = 0 ∧
    (yearly_metrics s).profit = 0 := by
  rcases h with h | h <;> simp [yearly_metrics, h]

/-- Witness for C7: the "Current" example with sendsPerWeek set to 0. -/
theorem zero_input_zero_metrics_witness :
    ({ exampleCurrent with sends_per_week := 0 } :
        EmailScenario).sends_per_week = 0 ∧
    ((yearly_metrics { exampleCurrent with sends_per_week := 0 }).total_sends = 0 ∧
     (yearly_metrics { exampleCurrent with sends_per_week := 0 }).total_opens = 0 ∧
     (yearly_metrics { exampleCurrent with sends_per_week := 0 }).total_clicks = 0 ∧
     (yearly_metrics { exampleCurrent with sends_per_week := 0 }).total_buyers = 0 ∧
     (yearly_metrics { exampleCurrent with sends_per_week := 0 }).revenue = 0 ∧
     (yearly_metrics { exampleCurrent with sends_per_week := 0 }).profit = 0) :=
  ⟨rfl, zero_input_zero_metrics { exampleCurrent with sends_per_week := 0 }
    (Or.inl rfl)⟩

/-- C8: for any pair of metrics, the presenter computes revenueDelta =
new.revenue - current.revenue and profitDelta = new.profit -
current.profit, and shows the success message exactly when revenueDelta
is positive, the warning message otherwise. -/
theorem uplift_presentation (cur n : YearlyMetrics) :
    rev_diff cur n = n.revenue - cur.revenue ∧
    prof_diff cur n = n.profit - cur.profit ∧
    (uplift_message cur n = UpliftMessage.success ↔ 0 < rev_diff cur n) ∧
    (uplift_message cur n = UpliftMessage.warning ↔ ¬ 0 < rev_diff cur n) := by
  refine ⟨rfl, rfl, ?_, ?_⟩ <;>
    · unfold uplift_message
      by_cases h : 0 < rev_diff cur n <;> simp [h]

/-- C9: `yearly_metrics` is pure and deterministic: equal scenarios give
equal metrics, and the method leaves the scenario state unchanged. -/
theorem yearly_metrics_pure (s t : EmailScenario) (h : s = t) :
    yearly_metrics s = yearly_metrics t ∧
    (yearly_metrics_method s).1 = yearly_metrics s ∧
    (yearly_metrics_method s).2 = s := by
  subst h
  exact ⟨rfl, rfl, rfl⟩

/-- Witness for C9, applied to the "Current" example. -/
theorem yearly_metrics_pure_witness :
    yearly_metrics exampleCurrent = yearly_metrics exampleCurrent ∧
    (yearly_metrics_method exampleCurrent).1 = yearly_metrics exampleCurrent ∧
    (yearly_metrics_method exampleCurrent).2 = exampleCurrent :=
  yearly_metrics_pure exampleCurrent exampleCurrent rfl

/-- C10: with non-negative listSize, avgOrderValue and rates, every
metric of `yearly_metrics` is monotone non-decreasing in sendsPerWeek. -/
theorem monotone_in_sends_per_week (s : EmailScenario) (w v : ℚ)
    (hl : 0 ≤ s.list_size) (ha : 0 ≤ s.avg_order_value)
    (ho : 0 ≤ s.open_rate) (hc : 0 ≤ s.click_rate)
    (hv : 0 ≤ s.conversion_rate) (hg : 0 ≤ s.gross_margin)
    (hw : w ≤ v) :
    (yearly_metrics { s with sends_per_week := w }).sends_per_year
      ≤ (yearly_metrics { s with sends_per_week := v }).sends_per_year ∧
    (yearly_metrics { s with sends_per_week := w }).total_sends
      ≤ (yearly_metrics { s with sends_per_week := v }).total_sends ∧
    (yearly_metrics { s with sends_per_week := w }).total_opens
      ≤ (yearly_metrics { s with sends_per_week := v }).total_opens ∧
    (yearly_metrics { s with sends_per_week := w }).total_clicks
      ≤ (yearly_metrics { s with sends_per_week := v }).total_clicks ∧
    (yearly_metrics { s with sends_per_week := w }).total_buyers
      ≤ (yearly_metrics { s with sends_per_week := v }).total_buyers ∧
    (yearly_metrics { s with sends_per_week := w }).revenue
      ≤ (yearly_metrics { s with sends_per_week := v }).revenue ∧
    (yearly_metrics { s with sends_per_week := w }).profit
      ≤ (yearly_metrics { s with sends_per_week := v }).profit := by
  simp only [yearly_metrics]
  refine ⟨?_, ?_, ?_, ?_, ?_, ?_, ?_⟩ <;> gcongr

/-- Witness for C10: raising the "Current" example from 2 to 7 sends per
week does not decrease any metric. -/
theorem monotone_in_sends_per_week_witness :
    (yearly_metrics { exampleCurrent with sends_per_week := 2 }).sends_per_year
      ≤ (yearly_metrics { exampleCurrent with sends_per_week := 7 }).sends_per_year ∧
    (yearly_metrics { exampleCurrent with sends_per_week := 2 }).total_sends
      ≤ (yearly_metrics { exampleCurrent with sends_per_week := 7 }).total_sends ∧
    (yearly_metrics { exampleCurrent with sends_per_week := 2 }).total_opens
      ≤ (yearly_metrics { exampleCurrent with sends_per_week := 7 }).total_opens ∧
    (yearly_metrics { exampleCurrent with sends_per_week := 2 }).total_clicks
      ≤ (yearly_metrics { exampleCurrent with sends_per_week := 7 }).total_clicks ∧
    (yearly_metrics { exampleCurrent with sends_per_week := 2 }).total_buyers
      ≤ (yearly_metrics { exampleCurrent with sends_per_week := 7 }).total_buyers ∧
    (yearly_metrics { exampleCurrent with sends_per_week := 2 }).revenue
      ≤ (yearly_metrics { exampleCurrent with sends_per_week := 7 }).revenue ∧
    (yearly_metrics { exampleCurrent with sends_per_week := 2 }).profit
      ≤ (yearly_metrics { exampleCurrent with sends_per_week := 7 }).profit :=
  monotone_in_sends_per_week exampleCurrent 2 7
    (by norm_num [exampleCurrent]) (by norm_num [exampleCurrent])
    (by norm_num [exampleCurrent]) (by norm_num [exampleCurrent])
    (by norm_num [exampleCurrent]) (by norm_num [exampleCurrent])
    (by norm_num)

end EmailCalc
